import Mathlib

/-!
Verification of the configuration/content composition model of the
willredington/portfolio repository.

The embedding below translates the repository's own code: the site
configuration module (`SITE`, `LOCALE`, `LOGO_IMAGE`, `SOCIALS`), the
front-matter of the two blog documents under `src/content/blog/`, and the
Next.js API handler in `src/pages/api/users.ts`.  The content-collection
operations (`listPosts`, `getPostBySlug`), the paginator and the social-link
renderer live in the external static-site generator, not in this repository;
those are modelled from the specification and are marked as such.
-/

namespace Portfolio

/-! ## Site configuration (from the config module) -/

/-- The `Site` shape of the configuration object. -/
structure Site where
  website : String
  author : String
  desc : String
  title : String
  ogImage : String
  lightAndDarkMode : Bool
  postPerPage : Nat
deriving DecidableEq, Repr

/-- `SITE` constant, translated field by field from the config module. -/
def SITE : Site :=
  { website := "https://willredington.com/"
    author := "Will Redington"
    desc := "Portfolio Website"
    title := "Portfolio"
    ogImage := "astropaper-og.jpg"
    lightAndDarkMode := true
    postPerPage := 3 }

/-- One entry of the `SOCIALS` table. -/
structure SocialObject where
  name : String
  href : String
  linkTitle : String
  active : Bool
deriving DecidableEq, Repr

/-- `SOCIALS` constant, translated entry by entry from the config module.
The `linkTitle` template literals are translated as string concatenation. -/
def SOCIALS : List SocialObject :=
  [ { name := "Github"
      href := "https://github.com/willredington"
      linkTitle := " " ++ SITE.title ++ " on Github"
      active := true }
  , { name := "LinkedIn"
      href := "https://www.linkedin.com/in/will-redington-04814493/"
      linkTitle := SITE.title ++ " on LinkedIn"
      active := true }
  , { name := "Mail"
      href := "mailto:will86325@gmail.com"
      linkTitle := "Send an email to " ++ SITE.title
      active := true } ]

/-! ## URL syntax checks -/

/-- `beginsWith cs ps` holds when `ps` is an initial segment of `cs`. -/
def beginsWith : List Char → List Char → Bool
  | _, [] => true
  | [], _ :: _ => false
  | c :: cs, p :: ps => c == p && beginsWith cs ps

/-- Syntactic http/https URL check: scheme followed by a nonempty remainder. -/
def isHttpUrl (s : String) : Bool :=
  (beginsWith s.data "https://".data && Nat.blt 8 s.data.length) ||
  (beginsWith s.data "http://".data && Nat.blt 7 s.data.length)

/-- Syntactic mailto URI check: `mailto:` followed by an address with `@`. -/
def isMailtoUri (s : String) : Bool :=
  beginsWith s.data "mailto:".data && (s.data.drop 7).contains '@'

/-! ## Blog content collection (front-matter of the documents) -/

/-- Order-preserving encoding of a UTC calendar timestamp as one number. -/
def mkUTC (y mo d h mi s : Nat) : Nat :=
  ((((y * 13 + mo) * 32 + d) * 24 + h) * 60 + mi) * 60 + s

/-- Front-matter fields of a blog document. -/
structure BlogPost where
  author : String
  pubDatetime : Nat
  title : String
  postSlug : String
  featured : Bool
  draft : Bool
  tags : List String
  ogImage : String
  description : String
deriving DecidableEq, Repr

/-- Front-matter of `multiplayer-trivia-game-part-1.md`. -/
def multiplayerTriviaGamePart1 : BlogPost :=
  { author := "Will Redington"
    pubDatetime := mkUTC 2024 9 3 15 22 0
    title := "Multiplayer Trivia Game - Part 1 - Design"
    postSlug := "multiplayer-trivia-game-with-ai-part-1"
    featured := true
    draft := false
    tags := ["ai", "chatgpt", "python", "kubernetes", "nextjs", "react", "node"]
    ogImage := "astropaper-og.jpg"
    description := "Designing the trivia game" }

/-- Front-matter of `multiplayer-trivia-game-part-2.md`. -/
def multiplayerTriviaGamePart2 : BlogPost :=
  { author := "Will Redington"
    pubDatetime := mkUTC 2024 9 3 15 22 0
    title := "Multiplayer Trivia Game - Part 2 - Services"
    postSlug := "multiplayer-trivia-game-with-ai-part-2"
    featured := true
    draft := false
    tags := ["ai", "chatgpt", "python", "kubernetes", "nextjs", "react", "node"]
    ogImage := "astropaper-og.jpg"
    description := "Building out the services" }

/-- The content collection: the two blog documents in the repository. -/
def blogCollection : List BlogPost :=
  [multiplayerTriviaGamePart1, multiplayerTriviaGamePart2]

/-! ## API handler (from `src/pages/api/users.ts`) -/

/-- Shape of an incoming HTTP request seen by the handler. -/
structure NextApiRequest where
  method : String
  headers : List (String × String)
  body : String
deriving DecidableEq, Repr

/-- The response object the handler mutates through `status`/`json`. -/
structure NextApiResponse where
  statusCode : Nat
  jsonBody : Option (List (String × String))
deriving DecidableEq, Repr

/-- `res.status(code)`: set the status code. -/
def NextApiResponse.status (res : NextApiResponse) (code : Nat) : NextApiResponse :=
  { res with statusCode := code }

/-- `res.json(payload)`: send a JSON object of string fields. -/
def NextApiResponse.json (res : NextApiResponse)
    (payload : List (String × String)) : NextApiResponse :=
  { res with jsonBody := some payload }

/-- The default export of `src/pages/api/users.ts`:
`(req, res) => res.status(200).json({ name: 'John Doe' })`. -/
def handler (_req : NextApiRequest) (res : NextApiResponse) : NextApiResponse :=
  (res.status 200).json [("name", "John Doe")]

/-- The handler threaded through an explicit program state: the source body
performs no reads or writes of any state outside the response object, so the
state component passes through untouched. -/
def handlerWithState {σ : Type} (st : σ) (req : NextApiRequest)
    (res : NextApiResponse) : σ × NextApiResponse :=
  (st, handler req res)

/-! ## Content-collection operations

The static-site generator implementing these lives outside the repository;
they are modelled from the specification. -/

/-- Modelled from the spec: the descending publication-date order used by
`listPosts` (sorted by `pubDatetime` descending). -/
def postDesc (a b : BlogPost) : Prop :=
  b.pubDatetime ≤ a.pubDatetime

instance : DecidableRel postDesc :=
  fun a b => Nat.decLe b.pubDatetime a.pubDatetime

instance : IsTotal BlogPost postDesc :=
  ⟨fun a b => Nat.le_total b.pubDatetime a.pubDatetime⟩

instance : IsTrans BlogPost postDesc :=
  ⟨fun _ _ _ hab hbc => Nat.le_trans hbc hab⟩

/-- Modelled from the spec: `listPosts(filter: {includeDrafts: boolean})`,
missing from the repository (it is the generator's collection view).  Produces
the sequence of posts sorted by `pubDatetime` descending, with `draft = true`
entries excluded unless `includeDrafts` is set. -/
def listPosts (posts : List BlogPost) (includeDrafts : Bool) : List BlogPost :=
  List.insertionSort postDesc
    (if includeDrafts then posts else posts.filter fun p => !p.draft)

/-- Modelled from the spec: `getPostBySlug(slug) → BlogPost | NotFound`,
missing from the repository.  `none` is the `NotFound` failure result, the
only failure the operation can produce. -/
def getPostBySlug (posts : List BlogPost) (slug : String) : Option BlogPost :=
  posts.find? fun p => p.postSlug == slug

/-- Recursion worker for `paginate`: `fuel` bounds the number of pages and is
instantiated with the list length, which always suffices. -/
def paginateFuel (n : Nat) : Nat → List BlogPost → List (List BlogPost)
  | _, [] => []
  | 0, _ :: _ => []
  | fuel + 1, x :: xs => (x :: xs.take (n - 1)) :: paginateFuel n fuel (xs.drop (n - 1))

/-- Modelled from the spec: the paginator splitting the listing into pages of
at most `n` posts, missing from the repository.  Each page is nonempty. -/
def paginate (n : Nat) (l : List BlogPost) : List (List BlogPost) :=
  paginateFuel n l.length l

/-- Modelled from the spec: the pagination page count, the number of listing
pages produced for the non-draft posts. -/
def pageCount (posts : List BlogPost) (n : Nat) : Nat :=
  (paginate n (listPosts posts false)).length

/-- Modelled from the spec: the rendered social link list — only entries of
`SOCIALS` with `active = true` are rendered, in their original order. -/
def renderedSocials : List SocialObject :=
  SOCIALS.filter fun s => s.active

/-! ## Helper lemmas -/

lemma paginateFuel_length (n : Nat) (hn : 0 < n) :
    ∀ (fuel : Nat) (l : List BlogPost), l.length ≤ fuel →
      (paginateFuel n fuel l).length = (l.length + n - 1) / n := by
  intro fuel
  induction fuel with
  | zero =>
    intro l hl
    cases l with
    | nil =>
      have h0 : (n - 1) / n = 0 := Nat.div_eq_of_lt (by omega)
      simp [paginateFuel, h0]
    | cons x xs => simp at hl
  | succ fuel ih =>
    intro l hl
    cases l with
    | nil =>
      have h0 : (n - 1) / n = 0 := Nat.div_eq_of_lt (by omega)
      simp [paginateFuel, h0]
    | cons x xs =>
      have hlen : (xs.drop (n - 1)).length ≤ fuel := by
        simp only [List.length_drop]
        simp only [List.length_cons] at hl
        omega
      rw [paginateFuel, List.length_cons, ih _ hlen, List.length_drop,
        List.length_cons]
      rcases le_or_lt xs.length (n - 1) with h | h
      · have h1 : xs.length - (n - 1) = 0 := by omega
        rw [h1, Nat.div_eq_of_lt (show 0 + n - 1 < n by omega)]
        have h3 : xs.length + 1 + n - 1 = xs.length + n := by omega
        rw [h3, Nat.add_div_right _ hn, Nat.div_eq_of_lt (by omega)]
      · have h1 : xs.length - (n - 1) + n - 1 = xs.length := by omega
        have h3 : xs.length + 1 + n - 1 = xs.length + n := by omega
        rw [h1, h3, Nat.add_div_right _ hn]

lemma paginate_length (n : Nat) (hn : 0 < n) (l : List BlogPost) :
    (paginate n l).length = (l.length + n - 1) / n :=
  paginateFuel_length n hn l.length l (Nat.le_refl _)

lemma getPostBySlug_mem (slug : String) (p : BlogPost) (hslug : p.postSlug = slug) :
    ∀ (posts : List BlogPost), (posts.map fun q => q.postSlug).Nodup →
      p ∈ posts → getPostBySlug posts slug = some p := by
  intro posts
  induction posts with
  | nil => intro _ hp; cases hp
  | cons q t ih =>
    intro huniq hp
    have huniq' : (∀ x ∈ t, ¬ x.postSlug = q.postSlug)
        ∧ (t.map fun r => r.postSlug).Nodup := by simpa using huniq
    by_cases hq : q.postSlug = slug
    · have heq : p = q := by
        rcases List.mem_cons.1 hp with h | h
        · exact h
        · exact absurd (hslug.trans hq.symm) (huniq'.1 p h)
      rw [getPostBySlug, List.find?_cons_of_pos _ (by simp [hq]), heq]
    · have hpt : p ∈ t := by
        rcases List.mem_cons.1 hp with h | h
        · exact absurd (h ▸ hslug) hq
        · exact h
      rw [getPostBySlug, List.find?_cons_of_neg _ (by simp [hq])]
      exact ih huniq'.2 hpt

lemma getPostBySlug_absent (slug : String) (posts : List BlogPost)
    (h : ∀ p ∈ posts, p.postSlug ≠ slug) : getPostBySlug posts slug = none := by
  rw [getPostBySlug, List.find?_eq_none]
  intro x hx
  simpa using h x hx

/-! ## Claim theorems -/

/-- C1: every post of the collection with `draft = false` appears exactly once
in `listPosts` without drafts, the output is ordered by `pubDatetime`
descending, and every `draft = true` post is absent without drafts and present
with `includeDrafts = true`. -/
theorem listPosts_spec (posts : List BlogPost) (hnd : posts.Nodup) :
    List.Sorted postDesc (listPosts posts false)
    ∧ List.Sorted postDesc (listPosts posts true)
    ∧ (∀ p ∈ posts, p.draft = false → (listPosts posts false).count p = 1)
    ∧ (∀ p ∈ posts, p.draft = true →
        p ∉ listPosts posts false ∧ p ∈ listPosts posts true) := by
  refine ⟨List.sorted_insertionSort postDesc _,
    List.sorted_insertionSort postDesc _, ?_, ?_⟩
  · intro p hp hdraft
    have hperm : List.Perm (listPosts posts false)
        (posts.filter fun q => !q.draft) :=
      List.perm_insertionSort postDesc _
    rw [hperm.count_eq]
    exact List.count_eq_one_of_mem (hnd.filter _)
      (List.mem_filter.2 ⟨hp, by simp [hdraft]⟩)
  · intro p hp hdraft
    constructor
    · intro hmem
      have h1 : p ∈ posts.filter fun q => !q.draft :=
        ((List.perm_insertionSort postDesc _).mem_iff).1 hmem
      have h2 := (List.mem_filter.1 h1).2
      simp [hdraft] at h2
    · exact ((List.perm_insertionSort postDesc _).mem_iff).2 hp

/-- Witness for C1 on the repository's collection extended with a draft post. -/
theorem listPosts_spec_witness :
    (listPosts (blogCollection ++
        [⟨"T", mkUTC 2025 1 1 0 0 0, "Draft", "draft-post", false, true, [], "", ""⟩])
      false).count multiplayerTriviaGamePart1 = 1
    ∧ (⟨"T", mkUTC 2025 1 1 0 0 0, "Draft", "draft-post", false, true, [], "", ""⟩ : BlogPost)
        ∉ listPosts (blogCollection ++
          [⟨"T", mkUTC 2025 1 1 0 0 0, "Draft", "draft-post", false, true, [], "", ""⟩]) false
    ∧ (⟨"T", mkUTC 2025 1 1 0 0 0, "Draft", "draft-post", false, true, [], "", ""⟩ : BlogPost)
        ∈ listPosts (blogCollection ++
          [⟨"T", mkUTC 2025 1 1 0 0 0, "Draft", "draft-post", false, true, [], "", ""⟩]) true := by
  have h := listPosts_spec (blogCollection ++
    [⟨"T", mkUTC 2025 1 1 0 0 0, "Draft", "draft-post", false, true, [], "", ""⟩])
    (by decide)
  have hd := h.2.2.2
    ⟨"T", mkUTC 2025 1 1 0 0 0, "Draft", "draft-post", false, true, [], "", ""⟩
    (by decide) rfl
  exact ⟨h.2.2.1 multiplayerTriviaGamePart1 (by decide) rfl, hd.1, hd.2⟩

/-- C2: when the collection's slugs are distinct, `getPostBySlug` returns the
exact matching post for any slug present, and `none` (the `NotFound` result,
the only failure of the `Option`-valued operation) for any slug absent. -/
theorem getPostBySlug_spec (posts : List BlogPost) (slug : String)
    (huniq : (posts.map fun p => p.postSlug).Nodup) :
    (∀ p ∈ posts, p.postSlug = slug → getPostBySlug posts slug = some p)
    ∧ ((∀ p ∈ posts, p.postSlug ≠ slug) → getPostBySlug posts slug = none) :=
  ⟨fun p hp hslug => getPostBySlug_mem slug p hslug posts huniq hp,
   fun h => getPostBySlug_absent slug posts h⟩

/-- Witness for C2: the first post's slug is found, a fresh slug is not. -/
theorem getPostBySlug_spec_witness :
    getPostBySlug blogCollection "multiplayer-trivia-game-with-ai-part-1"
      = some multiplayerTriviaGamePart1
    ∧ getPostBySlug blogCollection "no-such-slug" = none := by
  refine ⟨(getPostBySlug_spec blogCollection
      "multiplayer-trivia-game-with-ai-part-1" (by decide)).1
      multiplayerTriviaGamePart1 (by decide) rfl,
    (getPostBySlug_spec blogCollection "no-such-slug" (by decide)).2 ?_⟩
  decide

/-- C3: for every request and every initial response object, the handler of
`src/pages/api/users.ts` responds with status 200 and the JSON body
`{"name": "John Doe"}`. -/
theorem api_users_response (req : NextApiRequest) (res : NextApiResponse) :
    (handler req res).statusCode = 200
    ∧ (handler req res).jsonBody = some [("name", "John Doe")] :=
  ⟨rfl, rfl⟩

/-- Witness for C3 at a concrete request. -/
theorem api_users_response_witness :
    (handler ⟨"GET", [], ""⟩ ⟨0, none⟩).statusCode = 200
    ∧ (handler ⟨"GET", [], ""⟩ ⟨0, none⟩).jsonBody = some [("name", "John Doe")] :=
  api_users_response ⟨"GET", [], ""⟩ ⟨0, none⟩

/-- C4: the site configuration singleton's `website` is a syntactically valid
URL and its posts-per-page field satisfies the invariant `postPerPage > 0`
(the structure `Site` carries exactly the advertised fields and types). -/
theorem site_config_invariant :
    isHttpUrl SITE.website = true ∧ 0 < SITE.postPerPage := by
  decide

/-- C5: for every collection and every positive page size the page count is
`ceil(nonDraftCount / postsPerPage)`, written `(c + n - 1) / n` on naturals,
and it is `0` when the collection has no non-draft post. -/
theorem pageCount_ceil (posts : List BlogPost) (n : Nat) (hn : 0 < n) :
    pageCount posts n
      = ((posts.filter fun p => !p.draft).length + n - 1) / n
    ∧ ((posts.filter fun p => !p.draft).length = 0 → pageCount posts n = 0) := by
  have hlen : (listPosts posts false).length
      = (posts.filter fun p => !p.draft).length :=
    (List.perm_insertionSort postDesc _).length_eq
  have hmain : pageCount posts n
      = ((posts.filter fun p => !p.draft).length + n - 1) / n := by
    rw [pageCount, paginate_length n hn, hlen]
  refine ⟨hmain, fun h0 => ?_⟩
  rw [hmain, h0]
  exact Nat.div_eq_of_lt (by omega)

/-- Witness for C5 at the repository's collection and configured page size. -/
theorem pageCount_ceil_witness :
    0 < SITE.postPerPage
    ∧ pageCount blogCollection SITE.postPerPage
        = ((blogCollection.filter fun p => !p.draft).length
            + SITE.postPerPage - 1) / SITE.postPerPage
    ∧ pageCount blogCollection SITE.postPerPage = 1 := by
  have h := (pageCount_ceil blogCollection SITE.postPerPage (by decide)).1
  exact ⟨by decide, h, by rw [h]; decide⟩

/-- C6: every entry of `SOCIALS` has an `href` that is a syntactically valid
http/https URL or a `mailto:` URI. -/
theorem socials_href_wellformed :
    SOCIALS.all (fun s => isHttpUrl s.href || isMailtoUri s.href) = true := by
  decide

/-- C7: the rendered social link list is a subsequence of `SOCIALS` (same
relative order), every rendered entry has `active = true`, and every active
entry of `SOCIALS` is rendered. -/
theorem renderedSocials_spec :
    renderedSocials.Sublist SOCIALS
    ∧ (∀ s ∈ renderedSocials, s.active = true)
    ∧ (∀ s ∈ SOCIALS, s.active = true → s ∈ renderedSocials) :=
  ⟨List.filter_sublist _,
   fun _ hs => (List.mem_filter.1 hs).2,
   fun _ hs ha => List.mem_filter.2 ⟨hs, ha⟩⟩

/-- Witness for C7: the active Github entry is rendered. -/
theorem renderedSocials_spec_witness :
    (⟨"Github", "https://github.com/willredington", " Portfolio on Github", true⟩
      : SocialObject) ∈ renderedSocials :=
  renderedSocials_spec.2.2
    ⟨"Github", "https://github.com/willredington", " Portfolio on Github", true⟩
    (by decide) rfl

/-- C8: the handler is deterministic and effect-free — any two requests get
identical responses, and the threaded program state comes back unchanged. -/
theorem handler_pure {σ : Type} (st : σ) (req₁ req₂ : NextApiRequest)
    (res : NextApiResponse) :
    handlerWithState st req₁ res = handlerWithState st req₂ res
    ∧ (handlerWithState st req₁ res).1 = st :=
  ⟨rfl, rfl⟩

/-- Witness for C8 at two concrete distinct requests. -/
theorem handler_pure_witness :
    handlerWithState (42 : Nat) ⟨"GET", [], ""⟩ ⟨0, none⟩
      = handlerWithState 42 ⟨"POST", [("a", "b")], "x"⟩ ⟨0, none⟩
    ∧ (handlerWithState (42 : Nat) ⟨"GET", [], ""⟩ ⟨0, none⟩).1 = 42 :=
  handler_pure 42 ⟨"GET", [], ""⟩ ⟨"POST", [("a", "b")], "x"⟩ ⟨0, none⟩

/-- C9: the handler never branches on the HTTP method — every method gets the
same response as `GET`, with status 200 and never 405. -/
theorem handler_ignores_method (m : String) (hs : List (String × String))
    (b : String) (res : NextApiResponse) :
    handler ⟨m, hs, b⟩ res = handler ⟨"GET", hs, b⟩ res
    ∧ (handler ⟨m, hs, b⟩ res).statusCode = 200
    ∧ (handler ⟨m, hs, b⟩ res).statusCode ≠ 405 :=
  ⟨rfl, rfl, by
    intro hc
    have h200 : (200 : Nat) = 405 := hc
    omega⟩

/-- Witness for C9 at a concrete non-GET request. -/
theorem handler_ignores_method_witness :
    handler ⟨"DELETE", [], "payload"⟩ ⟨0, none⟩
      = handler ⟨"GET", [], "payload"⟩ ⟨0, none⟩
    ∧ (handler ⟨"DELETE", [], "payload"⟩ ⟨0, none⟩).statusCode = 200
    ∧ (handler ⟨"DELETE", [], "payload"⟩ ⟨0, none⟩).statusCode ≠ 405 :=
  handler_ignores_method "DELETE" [] "payload" ⟨0, none⟩

/-- C10: the two posts are distinct non-draft members of the collection with
the same publication timestamp (2024-09-03T15:22:00Z), so descending
`pubDatetime` order admits both relative orders between them. -/
theorem duplicate_pubDatetime :
    multiplayerTriviaGamePart1 ∈ blogCollection
    ∧ multiplayerTriviaGamePart2 ∈ blogCollection
    ∧ multiplayerTriviaGamePart1 ≠ multiplayerTriviaGamePart2
    ∧ multiplayerTriviaGamePart1.draft = false
    ∧ multiplayerTriviaGamePart2.draft = false
    ∧ multiplayerTriviaGamePart1.pubDatetime = mkUTC 2024 9 3 15 22 0
    ∧ multiplayerTriviaGamePart2.pubDatetime = mkUTC 2024 9 3 15 22 0
    ∧ List.Sorted postDesc [multiplayerTriviaGamePart1, multiplayerTriviaGamePart2]
    ∧ List.Sorted postDesc [multiplayerTriviaGamePart2, multiplayerTriviaGamePart1] := by
  refine ⟨by decide, by decide, by decide, rfl, rfl, rfl, rfl, ?_, ?_⟩
  · exact List.sorted_cons.2 ⟨by intro b hb; simp at hb; subst hb; exact Nat.le_refl _,
      List.sorted_singleton _⟩
  · exact List.sorted_cons.2 ⟨by intro b hb; simp at hb; subst hb; exact Nat.le_refl _,
      List.sorted_singleton _⟩

end Portfolio
